import Mathlib

/-!
Verification development for the repository
`ECDSA-Signature-Verifier-Bitcoin-secp256k1-Example` (single source file
`src/duzeszanse.py`).

The Python file defines `calculate_z` (SHA-256 of the hex-decoded
transaction id), `verify_signature` (range check on `r`, `s`, then a call
into the third-party `python-ecdsa` library, with a `try/except` that
catches `BadSignatureError` silently and every other exception with a
printed diagnostic), a hardcoded list of signature records, and a loop that
parses each record's hex fields with `int(_, 16)` and calls
`verify_signature`.

The embedding below translates the Python semantics faithfully:
Python byte strings become `List Nat` (each element < 256), Python `int`
becomes `Int` (or `Nat` where the value is known non-negative), exceptions
become an explicit `PyExc`-valued `Except`, and the `print` side effect of
the generic exception handler becomes an explicit list of output lines.

The bodies of the third-party library functions (`ecdsa.ecdsa.verify`,
`SECP256k1.curve.order()`) are not part of the repository's sources; they
are modelled from the specification, with their doc comments marked
`Modelled from the spec:`.
-/

set_option maxRecDepth 20000
set_option linter.unusedVariables false

/-! ## Python-level primitives -/

/-- Exceptions that the embedded Python code can raise or handle.
`valueError` is raised by `bytes.fromhex` / `int(_, 16)` on malformed
input; `badSignature` is the library's `BadSignatureError`; `other` stands
for any further unexpected exception (the `except Exception` branch of
`verify_signature` must handle all of these). -/
inductive PyExc where
  | valueError
  | badSignature
  | other
  deriving DecidableEq, Repr

deriving instance DecidableEq for Except

/-- ASCII whitespace, the characters `bytes.fromhex` skips between byte
pairs (space, tab, newline, vertical tab, form feed, carriage return). -/
def isPySpace (c : Char) : Bool :=
  c.toNat == 32 || c.toNat == 9 || c.toNat == 10 || c.toNat == 11 ||
  c.toNat == 12 || c.toNat == 13

/-- Value of a hexadecimal digit character (`0-9`, `a-f`, `A-F`). -/
def hexVal (c : Char) : Option Nat :=
  let n := c.toNat
  if 48 ≤ n && n ≤ 57 then some (n - 48)
  else if 97 ≤ n && n ≤ 102 then some (n - 87)
  else if 65 ≤ n && n ≤ 70 then some (n - 55)
  else none

/-- Core of Python's `bytes.fromhex`: ASCII whitespace may separate byte
pairs, each byte is exactly two adjacent hex digits (whitespace inside a
pair is an error), and any other character is an error (`ValueError`). -/
def fromhexAux : List Char → Option (List Nat)
  | [] => some []
  | c :: cs =>
    if isPySpace c then fromhexAux cs
    else
      match cs with
      | [] => none
      | d :: rest =>
        match hexVal c, hexVal d with
        | some h, some l => (fromhexAux rest).map (fun bs => (16 * h + l) :: bs)
        | _, _ => none

/-- Python's `bytes.fromhex`, as a total function returning `none` where
Python raises `ValueError`. -/
def fromhex (s : String) : Option (List Nat) :=
  fromhexAux s.data

/-- The library helper `ecdsa.util.string_to_number`: a byte string read as an unsigned
big-endian integer. -/
def string_to_number (bs : List Nat) : Nat :=
  bs.foldl (fun a b => 256 * a + b) 0

/-- Digit loop of Python's `int(s, 16)`: hex digits, with a single
underscore permitted between digits.  `acc` already holds the value of the
digits consumed so far. -/
def digitsLoop : List Char → Nat → Option Nat
  | [], acc => some acc
  | c :: cs, acc =>
    if c = '_' then
      match cs with
      | [] => none
      | d :: rest => (hexVal d).bind (fun v => digitsLoop rest (16 * acc + v))
    else (hexVal c).bind (fun v => digitsLoop cs (16 * acc + v))

/-- Digit part of `int(s, 16)`: at least one digit, which must not be an
underscore. -/
def parseHexCore (l : List Char) : Option Nat :=
  match l with
  | [] => none
  | c :: cs =>
    match hexVal c with
    | some v => digitsLoop cs v
    | none => none

/-- Strip ASCII whitespace from both ends (Python `int` accepts surrounding
whitespace). -/
def stripSpaces (l : List Char) : List Char :=
  ((l.dropWhile isPySpace).reverse.dropWhile isPySpace).reverse

/-- Python's `int(s, 16)`: optional surrounding whitespace, optional sign,
optional `0x`/`0X` prefix (an underscore may follow the prefix), then hex
digits with underscores allowed between digits.  Raises `ValueError`
(returned as `Except.error`) on anything else. -/
def parseHex (s : String) : Except PyExc Int :=
  let l0 := stripSpaces s.data
  let signed : Bool × List Char :=
    match l0 with
    | '-' :: rest => (true, rest)
    | '+' :: rest => (false, rest)
    | _ => (false, l0)
  let l1 := signed.2
  let l2 : List Char :=
    match l1 with
    | '0' :: x :: rest =>
      if x = 'x' || x = 'X' then
        match rest with
        | '_' :: r2 => r2
        | _ => rest
      else '0' :: x :: rest
    | _ => l1
  match parseHexCore l2 with
  | some v => .ok (if signed.1 then -(v : Int) else (v : Int))
  | none => .error .valueError

/-! ## SHA-256 (`hashlib.sha256`)

A direct functional transcription of FIPS 180-4, on `Nat` with explicit
reduction modulo `2 ^ 32`.  Used by `calculate_z` and to settle the claims
about the digest / public-key derivation. -/

/-- Modulus for 32-bit words. -/
def M32 : Nat := 4294967296

/-- Right-rotation of a 32-bit word by `n` bits. -/
def rotr (n x : Nat) : Nat :=
  (x / 2 ^ n + x % 2 ^ n * 2 ^ (32 - n)) % M32

/-- SHA-256 big sigma 0. -/
def bsig0 (x : Nat) : Nat := rotr 2 x ^^^ rotr 13 x ^^^ rotr 22 x

/-- SHA-256 big sigma 1. -/
def bsig1 (x : Nat) : Nat := rotr 6 x ^^^ rotr 11 x ^^^ rotr 25 x

/-- SHA-256 small sigma 0. -/
def ssig0 (x : Nat) : Nat := rotr 7 x ^^^ rotr 18 x ^^^ x / 2 ^ 3

/-- SHA-256 small sigma 1. -/
def ssig1 (x : Nat) : Nat := rotr 17 x ^^^ rotr 19 x ^^^ x / 2 ^ 10

/-- SHA-256 choice function. -/
def chF (e f g : Nat) : Nat := e &&& f ^^^ (e ^^^ 4294967295) &&& g

/-- SHA-256 majority function. -/
def majF (a b c : Nat) : Nat := a &&& b ^^^ a &&& c ^^^ b &&& c

/-- The 64 SHA-256 round constants. -/
def K256 : List Nat :=
  [1116352408, 1899447441, 3049323471, 3921009573, 961987163, 1508970993,
   2453635748, 2870763221, 3624381080, 310598401, 607225278, 1426881987,
   1925078388, 2162078206, 2614888103, 3248222580, 3835390401, 4022224774,
   264347078, 604807628, 770255983, 1249150122, 1555081692, 1996064986,
   2554220882, 2821834349, 2952996808, 3210313671, 3336571891, 3584528711,
   113926993, 338241895, 666307205, 773529912, 1294757372, 1396182291,
   1695183700, 1986661051, 2177026350, 2456956037, 2730485921, 2820302411,
   3259730800, 3345764771, 3516065817, 3600352804, 4094571909, 275423344,
   430227734, 506948616, 659060556, 883997877, 958139571, 1322822218,
   1537002063, 1747873779, 1955562222, 2024104815, 2227730452, 2361852424,
   2428436474, 2756734187, 3204031479, 3329325298]

/-- The eight words of the SHA-256 working state. -/
structure Hash8 where
  a : Nat
  b : Nat
  c : Nat
  d : Nat
  e : Nat
  f : Nat
  g : Nat
  h : Nat
  deriving DecidableEq, Repr

/-- SHA-256 initial hash state. -/
def sha256Init : Hash8 :=
  ⟨1779033703, 3144134277, 1013904242, 2773480762,
   1359893119, 2600822924, 528734635, 1541459225⟩

/-- The `k` big-endian bytes of `v` (most significant first). -/
def natToBE : Nat → Nat → List Nat
  | 0, _ => []
  | k + 1, v => natToBE k (v / 256) ++ [v % 256]

/-- SHA-256 message padding: a `0x80` byte, zeros up to 56 mod 64, then the
bit length as eight big-endian bytes. -/
def sha256Pad (msg : List Nat) : List Nat :=
  let L := msg.length
  msg ++ 128 :: List.replicate ((119 - L % 64) % 64) 0 ++
    natToBE 8 (8 * L % 2 ^ 64)

/-- Group a byte list into 32-bit big-endian words. -/
def wordsOf : List Nat → List Nat
  | b0 :: b1 :: b2 :: b3 :: rest =>
    (((b0 * 256 + b1) * 256 + b2) * 256 + b3) :: wordsOf rest
  | _ => []

/-- Message-schedule extension: `acc` holds the words produced so far, most
recent first; each step prepends
`ssig1 w₂ + w₇ + ssig0 w₁₅ + w₁₆ mod 2^32` (indices counted back from the
newest word). -/
def extendW : Nat → List Nat → List Nat
  | 0, acc => acc.reverse
  | fuel + 1, acc =>
    extendW fuel
      ((ssig1 (acc.getD 1 0) + acc.getD 6 0 + ssig0 (acc.getD 14 0) +
        acc.getD 15 0) % M32 :: acc)

/-- One SHA-256 round with round constant `k` and schedule word `w`. -/
def sha256Round (st : Hash8) (kw : Nat × Nat) : Hash8 :=
  let t1 := (st.h + bsig1 st.e + chF st.e st.f st.g + kw.1 + kw.2) % M32
  let t2 := (bsig0 st.a + majF st.a st.b st.c) % M32
  ⟨(t1 + t2) % M32, st.a, st.b, st.c, (st.d + t1) % M32, st.e, st.f, st.g⟩

/-- Compress one 64-byte block into the running hash state. -/
def sha256Block (H : Hash8) (block : List Nat) : Hash8 :=
  let W := extendW 48 (wordsOf block).reverse
  let s := (K256.zip W).foldl sha256Round H
  ⟨(H.a + s.a) % M32, (H.b + s.b) % M32, (H.c + s.c) % M32,
   (H.d + s.d) % M32, (H.e + s.e) % M32, (H.f + s.f) % M32,
   (H.g + s.g) % M32, (H.h + s.h) % M32⟩

/-- Split a byte list into 64-byte blocks (`fuel` bounds the recursion; any
`fuel ≥` the list length works). -/
def splitBlocks : Nat → List Nat → List (List Nat)
  | 0, _ => []
  | _, [] => []
  | fuel + 1, l => l.take 64 :: splitBlocks fuel (l.drop 64)

/-- Digest function `hashlib.sha256(msg).digest()`: the 32 digest bytes of a byte string. -/
def sha256_bytes (msg : List Nat) : List Nat :=
  let padded := sha256Pad msg
  let H := (splitBlocks padded.length padded).foldl sha256Block sha256Init
  natToBE 4 H.a ++ natToBE 4 H.b ++ natToBE 4 H.c ++ natToBE 4 H.d ++
  natToBE 4 H.e ++ natToBE 4 H.f ++ natToBE 4 H.g ++ natToBE 4 H.h

/-- Lowercase hex character for a value below 16. -/
def hexChar (v : Nat) : Char :=
  Char.ofNat (if v < 10 then 48 + v else 87 + v)

/-- Lowercase hex characters of a byte string, two per byte. -/
def hexChars : List Nat → List Char
  | [] => []
  | b :: bs => hexChar (b / 16) :: hexChar (b % 16) :: hexChars bs

/-- Python's `.hexdigest()` rendering of a byte string. -/
def toHexString (bs : List Nat) : String :=
  String.mk (hexChars bs)

/-! ## secp256k1 arithmetic and the modelled library verifier

The repository imports `verify` from `ecdsa.ecdsa` and the curve order
through `SECP256k1.curve.order()`.  The bodies of those library functions
are third-party code that is not part of this repository's sources, so they
are modelled from the specification (spec sections 3 and 4.1). -/

/-- The secp256k1 field prime (spec section 3, CurveParameters). -/
def p256 : Nat :=
  0xfffffffffffffffffffffffffffffffffffffffffffffffffffffffefffffc2f

/-- Modelled from the spec: the curve group order `n` that the library call
`SECP256k1.curve.order()` yields (spec section 3: CurveParameters are the
fixed secp256k1 constants; the glossary defines `n` as the order of the
curve's base point).  It equals the `n` field of every hardcoded record. -/
def curveOrder : Nat :=
  0xfffffffffffffffffffffffffffffffebaaedce6af48a03bbfd25e8cd0364141

/-- A point of the curve in affine coordinates, or the point at
infinity. -/
inductive ECPoint where
  | infinity
  | point (x y : Nat)
  deriving DecidableEq, Repr

/-- The secp256k1 generator `G` (spec section 3, CurveParameters). -/
def Gpt : ECPoint :=
  ECPoint.point
    0x79be667ef9dcbbac55a06295ce870b07029bfcdb2dce28d959f2815b16f81798
    0x483ada7726a3c4655da4fbfc0e1108a8fd17b448a68554199c47d08ffb10d4b8

/-- Binary modular exponentiation; `fuel` bounds the recursion depth (any
fuel at least the bit length of `e` is enough). -/
def powmodAux : Nat → Nat → Nat → Nat → Nat
  | 0, _, _, m => 1 % m
  | fuel + 1, b, e, m =>
    if e = 0 then 1 % m
    else
      let r := powmodAux fuel (b * b % m) (e / 2) m
      if e % 2 = 1 then r * b % m else r

/-- Modular exponentiation `b ^ e mod m` (enough fuel for 256-bit
exponents). -/
def powmod (b e m : Nat) : Nat :=
  powmodAux 300 (b % m) e m

/-- Modelled from the spec: `modInverse(s, n)` (spec section 4.1, step 1),
computed by Fermat's little theorem for the prime moduli in use. -/
def modInverse (a m : Nat) : Nat :=
  powmod a (m - 2) m

/-- Subtraction modulo `p` on reduced representatives. -/
def submod (a b p : Nat) : Nat :=
  (a + (p - b % p)) % p

/-- Affine point addition on secp256k1 (curve `y^2 = x^3 + 7`, so the
doubling slope is `3x^2 / 2y`); coordinates are kept reduced mod `p256`. -/
def ecAdd : ECPoint → ECPoint → ECPoint
  | ECPoint.infinity, Q => Q
  | P, ECPoint.infinity => P
  | ECPoint.point x1 y1, ECPoint.point x2 y2 =>
    if x1 % p256 = x2 % p256 then
      if (y1 + y2) % p256 = 0 then ECPoint.infinity
      else
        let lam := 3 * x1 * x1 % p256 * modInverse (2 * y1 % p256) p256 % p256
        let x3 := submod (lam * lam % p256) ((x1 + x2) % p256) p256
        ECPoint.point x3 (submod (lam * submod x1 x3 p256 % p256) y1 p256)
    else
      let lam := submod y2 y1 p256 * modInverse (submod x2 x1 p256) p256 % p256
      let x3 := submod (submod (lam * lam % p256) x1 p256) x2 p256
      ECPoint.point x3 (submod (lam * submod x1 x3 p256 % p256) y1 p256)

/-- Double-and-add scalar multiplication, with `fuel` bounding the
recursion (any fuel at least the bit length of `k` works). -/
def scalarMulAux : Nat → Nat → ECPoint → ECPoint
  | 0, _, _ => ECPoint.infinity
  | fuel + 1, k, P =>
    if k = 0 then ECPoint.infinity
    else
      let r := scalarMulAux fuel (k / 2) (ecAdd P P)
      if k % 2 = 1 then ecAdd P r else r

/-- Scalar multiplication `k * P` (enough fuel for 256-bit scalars). -/
def scalarMul (k : Nat) (P : ECPoint) : ECPoint :=
  scalarMulAux 300 k P

/-- The x-coordinate of a finite point (0 at infinity; only used under the
hypothesis that the point is finite). -/
def xcoord : ECPoint → Nat
  | ECPoint.infinity => 0
  | ECPoint.point x _ => x

/-- Modelled from the spec: the library signature check
`verify((r, s), z, pubkey)` imported from `ecdsa.ecdsa` (third-party code,
not under `src/`).  Spec section 4.1: `w = modInverse(s, n)`,
`u1 = (z * w) mod n`, `u2 = (r * w) mod n`, `P = u1*G + u2*Q`, and the
signature is valid iff `P` is not the point at infinity and
`P.x mod n == r`.  Digest values `z >= n` are reduced modulo `n`
(spec section 3).  The integer `pubkey` that `verify_signature` passes is
not a curve point, and neither the source nor the spec determines how the
library would turn it into the point `Q`; the embedding therefore takes the
interpretation as the explicit parameter `toPoint` (every theorem below is
universally quantified over it). -/
def ecdsa_verify (r s : Nat) (z : Int) (Q : ECPoint) : Bool :=
  match ecAdd
      (scalarMul (z * (modInverse s curveOrder : Nat) % (curveOrder : Int)).toNat
        Gpt)
      (scalarMul (r * modInverse s curveOrder % curveOrder) Q) with
  | ECPoint.infinity => false
  | ECPoint.point x _ => decide (x % curveOrder = r)

/-- The standard ECDSA verification equation exactly as the spec words it
(section 4.1, steps 1-4), as a proposition: with `w = modInverse(s, n)`,
`u1 = (z*w) mod n`, `u2 = (r*w) mod n` and `P = u1*G + u2*Q`, the
signature is valid iff `P` is not the point at infinity and
`P.x mod n == r`.  Stated separately from `ecdsa_verify` so that the
claim about the verifier can relate the program's boolean to the spec's
equation. -/
def specVerifyEquation (r s : Nat) (z : Int) (Q : ECPoint) : Prop :=
  ecAdd
      (scalarMul (z * (modInverse s curveOrder : Nat) % (curveOrder : Int)).toNat
        Gpt)
      (scalarMul (r * modInverse s curveOrder % curveOrder) Q) ≠
    ECPoint.infinity ∧
  xcoord
      (ecAdd
        (scalarMul (z * (modInverse s curveOrder : Nat) % (curveOrder : Int)).toNat
          Gpt)
        (scalarMul (r * modInverse s curveOrder % curveOrder) Q)) %
    curveOrder = r

/-! ## The embedded program -/

/-- Function `calculate_z` (lines 7-9): SHA-256 of the hex-decoded transaction id,
rendered with `.hexdigest()`; `bytes.fromhex` raises `ValueError` on
malformed input, which `calculate_z` does not catch. -/
def calculate_z (txid : String) : Except PyExc String :=
  match fromhex txid with
  | none => Except.error PyExc.valueError
  | some bs => Except.ok (toHexString (sha256_bytes bs))

/-- Observations recorded alongside a run of `verify_signature`'s `try`
block: whether the library curve check was invoked, and the integer passed
to it as public-key material (line 23).  These fields instrument the
embedding; they carry no computational effect. -/
structure VerifyGhost where
  reachedCurve : Bool
  pubkeyUsed : Option Nat
  deriving DecidableEq, Repr

/-- The observable outcome of one `verify_signature` call: the returned
boolean, the lines printed (line 29 prints a diagnostic in the generic
`except Exception` branch), and the ghost observations. -/
structure RunResult where
  result : Bool
  output : List String
  reachedCurve : Bool
  pubkeyUsed : Option Nat
  deriving DecidableEq, Repr

/-- The diagnostic line that line 29 prints for an exception reaching the
generic handler. -/
def pyMsg : PyExc → String
  | PyExc.valueError => "Błąd weryfikacji podpisu: ValueError"
  | PyExc.badSignature => "Błąd weryfikacji podpisu: BadSignatureError"
  | PyExc.other => "Błąd weryfikacji podpisu: Exception"

/-- The range test of line 19: `0 < r < order and 0 < s < order`, with
`order` the library curve order (the parameter `n` of `verify_signature`
is not consulted). -/
def rangeOK (r s : Int) : Bool :=
  decide (0 < r ∧ r < (curveOrder : Int) ∧ 0 < s ∧ s < (curveOrder : Int))

/-- The `try` block of `verify_signature` (lines 13-24): when the range
check fails the function returns `False` early; otherwise line 23 decodes
the txid (`ValueError` on bad hex) and converts the bytes with
`string_to_number`; finally line 24 calls the library check. -/
def verify_try (toPoint : Nat → ECPoint) (txid : String) (r s z : Int) :
    Except PyExc Bool × VerifyGhost :=
  if rangeOK r s then
    match fromhex txid with
    | none => (Except.error PyExc.valueError, ⟨false, none⟩)
    | some bs =>
      let pubkey := string_to_number bs
      (Except.ok (ecdsa_verify r.toNat s.toNat z (toPoint pubkey)),
       ⟨true, some pubkey⟩)
  else (Except.ok false, ⟨false, none⟩)

/-- The exception handlers of `verify_signature` (lines 26-30):
`BadSignatureError` is swallowed silently with `False`; any other exception
prints one diagnostic line and yields `False`; a normal return prints
nothing. -/
def handleVerify : Except PyExc Bool → Bool × List String
  | Except.ok b => (b, [])
  | Except.error PyExc.badSignature => (false, [])
  | Except.error e => (false, [pyMsg e])

/-- Function `verify_signature` (lines 12-30).  The unused parameter `n` mirrors the
source, whose body consults the library curve order instead. -/
def verify_signature (toPoint : Nat → ECPoint) (txid : String)
    (r s z n : Int) : RunResult :=
  let rg := verify_try toPoint txid r s z
  let bo := handleVerify rg.1
  ⟨bo.1, bo.2, rg.2.reachedCurve, rg.2.pubkeyUsed⟩

/-- One entry of the hardcoded `signatures` list (lines 33-66): the hex
string fields exactly as written in the source, plus the stored `Low-S?`
flag. -/
structure SigRecord where
  txid : String
  r : String
  s : String
  z : String
  lowS : Bool
  n : String
  deriving DecidableEq, Repr

/-- The hardcoded `signatures` data (lines 33-66), literal for literal. -/
def signatures : List SigRecord :=
  [⟨"44b4cca7a2306c6af2a931a50f9138bf87bf13ba41cd5ce5b6239e930b34793e",
    "0xfbc2b9a148f7c136fd5ab60d9a1317624d90630ccdf1b65562977f370d999841",
    "0x3f598a19e8e4eefec27af6fb8765132b205f45445d4b3755235d232d6f2ee41c",
    "0xbeb21d89f2ebdc645094135d999aa79d386711a6a5f0289eba893c5515a4856f",
    true,
    "0xfffffffffffffffffffffffffffffffebaaedce6af48a03bbfd25e8cd0364141"⟩,
   ⟨"44b4cca7a2306c6af2a931a50f9138bf87bf13ba41cd5ce5b6239e930b34793e",
    "0x8ca2698b53fffcf9d064b1ca1313ff08e08e47d3bbb97a4f9d54dd0e3164af9a",
    "0x65913d2b007ebedf451e0068b368a33ff0fdb9725370a8cecc34e2e8449f143c",
    "0xbeb21d89f2ebdc645094135d999aa79d386711a6a5f0289eba893c5515a4856f",
    true,
    "0xfffffffffffffffffffffffffffffffebaaedce6af48a03bbfd25e8cd0364141"⟩,
   ⟨"44b4cca7a2306c6af2a931a50f9138bf87bf13ba41cd5ce5b6239e930b34793e",
    "0xefe66ff0cc452d2dc373db4cf2fa848944e32dbfac6c46542d2ed03a22cbb081",
    "0x1726f4b1dc28ca118aea9d6a4fc7f9345c6cb071b7cbd95b22456c45539cb5fa",
    "0xbeb21d89f2ebdc645094135d999aa79d386711a6a5f0289eba893c5515a4856f",
    true,
    "0xfffffffffffffffffffffffffffffffebaaedce6af48a03bbfd25e8cd0364141"⟩,
   ⟨"44b4cca7a2306c6af2a931a50f9138bf87bf13ba41cd5ce5b6239e930b34793e",
    "0x1e68b7d13178cd65061c2bb57623efb2f99be1577465a2ec0532f697113e4e34",
    "0x16779876223604f100c9e444feea939aa828928dd2a67ca4a2ac1afe1edfa310",
    "0xbeb21d89f2ebdc645094135d999aa79d386711a6a5f0289eba893c5515a4856f",
    true,
    "0xfffffffffffffffffffffffffffffffebaaedce6af48a03bbfd25e8cd0364141"⟩]

/-- The body of the batch loop for one record (lines 70-84): the four
`int(_, 16)` conversions happen before and outside the `try` of
`verify_signature`, so a malformed field raises `ValueError` out of the
loop; the prints of lines 76-88 are presentation (spec section 6 puts the
textual formatting out of scope) and carry no failure modes. -/
def processRecord (toPoint : Nat → ECPoint) (rec : SigRecord) :
    Except PyExc RunResult := do
  let r ← parseHex rec.r
  let s ← parseHex rec.s
  let z ← parseHex rec.z
  let n ← parseHex rec.n
  Except.ok (verify_signature toPoint rec.txid r s z n)

/-- The batch loop (lines 69-90): records processed in order; an exception
escaping one record's processing aborts the rest of the batch (Python `for`
offers no per-iteration isolation beyond what the body provides). -/
def processBatch (toPoint : Nat → ECPoint) :
    List SigRecord → Except PyExc (List RunResult)
  | [] => Except.ok []
  | rec :: rest => do
    let v ← processRecord toPoint rec
    let vs ← processBatch toPoint rest
    Except.ok (v :: vs)

/-- Modelled from the spec: `isLowS(s, n)` (spec section 4.1).  The source
has no low-S computation — the records only carry a hardcoded `Low-S?`
field (lines 39, 47, 55, 63) that line 80 prints back — so the operation is
taken from the spec's words: true iff `s <= n/2`. -/
def isLowS (s n : Nat) : Bool :=
  decide (s ≤ n / 2)

/-- The failure condition exactly as the spec words it for
`digestFromIdentifier`: the identifier is "not valid hex of even length",
read literally as: not every character a hex digit, or an odd number of
characters.  Stated from the spec (not the source) to compare against the
source's actual `bytes.fromhex` behaviour. -/
def specValidHexEven (s : String) : Bool :=
  s.data.all (fun c => (hexVal c).isSome) && s.length % 2 == 0

/-- The digit-evaluation core of `int(s, 16)` started with accumulator 0:
the value of a hex string read as an unsigned big-endian integer. -/
def hexStrVal (s : String) : Option Nat :=
  digitsLoop s.data 0

/-- A concrete interpretation of public-key material as a point, used to
instantiate the `toPoint` parameter in concrete runs (the claims' theorems
are quantified over every interpretation). -/
def toPointDefault : Nat → ECPoint := fun _ => ECPoint.infinity

/-! ## Shared lemmas -/

/-- When the range check fails, `verify_signature` returns `False` from
inside the `try` with no exception, no output, and no curve call. -/
theorem verify_signature_range_fail (tp : Nat → ECPoint) (txid : String)
    (r s z n : Int) (h : rangeOK r s = false) :
    verify_signature tp txid r s z n = ⟨false, [], false, none⟩ := by
  simp [verify_signature, verify_try, handleVerify, h]

/-- When the range check passes but the txid is not decodable, the
`ValueError` of line 23 reaches the generic handler: result `False`, one
diagnostic line, no curve call. -/
theorem verify_signature_decode_fail (tp : Nat → ECPoint) (txid : String)
    (r s z n : Int) (hr : rangeOK r s = true) (hd : fromhex txid = none) :
    verify_signature tp txid r s z n =
      ⟨false, [pyMsg PyExc.valueError], false, none⟩ := by
  simp [verify_signature, verify_try, handleVerify, hr, hd]

/-- When the range check passes and the txid decodes, `verify_signature`
returns the library check's verdict on the material
`string_to_number bs`, silently. -/
theorem verify_signature_curve (tp : Nat → ECPoint) (txid : String)
    (r s z n : Int) (bs : List Nat) (hr : rangeOK r s = true)
    (hd : fromhex txid = some bs) :
    verify_signature tp txid r s z n =
      ⟨ecdsa_verify r.toNat s.toNat z (tp (string_to_number bs)),
       [], true, some (string_to_number bs)⟩ := by
  simp [verify_signature, verify_try, handleVerify, hr, hd]

/-- Mapping `hexVal` inverts `hexChar` on values below 16. -/
theorem hexVal_hexChar : ∀ v : Nat, v < 16 → hexVal (hexChar v) = some v := by
  decide

/-- Mapping `hexChar` never yields the underscore character. -/
theorem hexChar_ne_underscore : ∀ v : Nat, v < 16 → hexChar v ≠ '_' := by
  decide

/-- One step of `digitsLoop` on a hex-digit character. -/
theorem digitsLoop_cons (c : Char) (cs : List Char) (acc v : Nat)
    (hne : c ≠ '_') (h : hexVal c = some v) :
    digitsLoop (c :: cs) acc = digitsLoop cs (16 * acc + v) := by
  cases cs with
  | nil => simp [digitsLoop.eq_2, hne, h, digitsLoop.eq_1]
  | cons d rest => simp [digitsLoop.eq_3, hne, h]

/-- The hex-digit loop of `int(_, 16)` evaluates the lowercase hex
rendering of a byte string to its big-endian value. -/
theorem digitsLoop_hexChars (l : List Nat) (acc : Nat)
    (h : ∀ b ∈ l, b < 256) :
    digitsLoop (hexChars l) acc =
      some (l.foldl (fun a b => 256 * a + b) acc) := by
  induction l generalizing acc with
  | nil => rfl
  | cons b bs ih =>
    have hb : b < 256 := h b (List.mem_cons_self b bs)
    have h1 : b / 16 < 16 := by omega
    have h2 : b % 16 < 16 := by omega
    have hrest : ∀ x ∈ bs, x < 256 := fun x hx => h x (List.mem_cons_of_mem b hx)
    rw [show hexChars (b :: bs) =
          hexChar (b / 16) :: hexChar (b % 16) :: hexChars bs from rfl,
        digitsLoop_cons _ _ _ _ (hexChar_ne_underscore _ h1) (hexVal_hexChar _ h1),
        digitsLoop_cons _ _ _ _ (hexChar_ne_underscore _ h2) (hexVal_hexChar _ h2),
        ih _ hrest]
    have : 16 * (16 * acc + b / 16) + b % 16 = 256 * acc + b := by omega
    simp only [List.foldl, this]

/-- Every element of `natToBE k v` is a byte. -/
theorem natToBE_lt (k : Nat) : ∀ v b, b ∈ natToBE k v → b < 256 := by
  induction k with
  | zero => intro v b hb; simp [natToBE] at hb
  | succ k ih =>
    intro v b hb
    simp only [natToBE, List.mem_append, List.mem_singleton] at hb
    rcases hb with hb | hb
    · exact ih _ _ hb
    · omega

/-- Every element of a SHA-256 digest is a byte. -/
theorem sha256_bytes_lt (msg : List Nat) : ∀ b ∈ sha256_bytes msg, b < 256 := by
  intro b hb
  unfold sha256_bytes at hb
  simp only [List.mem_append] at hb
  rcases hb with ((((((hb | hb) | hb) | hb) | hb) | hb) | hb) | hb <;>
    exact natToBE_lt _ _ _ hb

/-- The `.hexdigest()` string of a digest, read back as a hex integer,
is the digest bytes' big-endian value. -/
theorem hexStrVal_toHexString (l : List Nat) (h : ∀ b ∈ l, b < 256) :
    hexStrVal (toHexString l) = some (string_to_number l) := by
  unfold hexStrVal toHexString string_to_number
  exact digitsLoop_hexChars l 0 h

/-- The boolean check agrees with the spec's equation, pointwise. -/
theorem ecdsa_verify_iff (r s : Nat) (z : Int) (Q : ECPoint) :
    ecdsa_verify r s z Q = true ↔ specVerifyEquation r s z Q := by
  unfold ecdsa_verify specVerifyEquation
  split
  next heq => simp [heq, xcoord]
  next x y heq => simp [heq, xcoord]

/-! ## The claims -/

/-- C1: for every signature check that reaches curve arithmetic, the
verifier follows the standard ECDSA verification equation: with
`w = s^-1 mod n`, `u1 = (z*w) mod n`, `u2 = (r*w) mod n` and
`P = u1*G + u2*Q`, the result is true if and only if `P` is not the point
at infinity and `P.x mod n` equals `r` (here `Q` is the interpretation of
the decoded verification material, quantified over every
interpretation `tp`). -/
theorem claim_C1 (tp : Nat → ECPoint) (txid : String) (r s z n : Int)
    (h : (verify_signature tp txid r s z n).reachedCurve = true) :
    ((verify_signature tp txid r s z n).result = true ↔
      specVerifyEquation r.toNat s.toNat z
        (tp (string_to_number ((fromhex txid).getD [])))) := by
  cases hR : rangeOK r s with
  | false => rw [verify_signature_range_fail tp txid r s z n hR] at h; simp at h
  | true =>
    cases hd : fromhex txid with
    | none => rw [verify_signature_decode_fail tp txid r s z n hR hd] at h; simp at h
    | some bs =>
      rw [verify_signature_curve tp txid r s z n bs hR hd]
      simpa using ecdsa_verify_iff r.toNat s.toNat z (tp (string_to_number bs))

/-- Witness for C1 at a concrete input that reaches the curve check. -/
theorem claim_C1_witness :
    (verify_signature toPointDefault "00" 1 1 0 1).reachedCurve = true ∧
    ((verify_signature toPointDefault "00" 1 1 0 1).result = true ↔
      specVerifyEquation (1 : Int).toNat (1 : Int).toNat 0
        (toPointDefault (string_to_number ((fromhex "00").getD [])))) :=
  ⟨by decide, claim_C1 toPointDefault "00" 1 1 0 1 (by decide)⟩

/-- C2: whenever `r <= 0`, `r >= n`, `s <= 0` or `s >= n` (with `n` the
secp256k1 group order, per the spec's glossary), `verify_signature`
returns false immediately from the range check of lines 19-20: no
exception, no output, no curve arithmetic, no public-key material. -/
theorem claim_C2 (tp : Nat → ECPoint) (txid : String) (r s z n : Int)
    (h : r ≤ 0 ∨ (curveOrder : Int) ≤ r ∨ s ≤ 0 ∨ (curveOrder : Int) ≤ s) :
    verify_signature tp txid r s z n = ⟨false, [], false, none⟩ := by
  apply verify_signature_range_fail
  simp only [rangeOK, decide_eq_false_iff_not]
  omega

/-- Witness for C2 at `r = 0`. -/
theorem claim_C2_witness :
    ((0 : Int) ≤ 0 ∨ (curveOrder : Int) ≤ 0 ∨ (1 : Int) ≤ 0 ∨
      (curveOrder : Int) ≤ 1) ∧
    verify_signature toPointDefault "00" 0 1 0 (curveOrder : Int) =
      ⟨false, [], false, none⟩ :=
  ⟨Or.inl (le_refl 0),
   claim_C2 toPointDefault "00" 0 1 0 (curveOrder : Int) (Or.inl (le_refl 0))⟩

/-- C3: `isLowS s n` returns true if and only if `s ≤ n/2` (with `n/2`
read as exact division, as the spec writes it). -/
theorem claim_C3 (s n : Nat) : isLowS s n = true ↔ (s : ℚ) ≤ (n : ℚ) / 2 := by
  simp only [isLowS, decide_eq_true_eq]
  rw [Nat.le_div_iff_mul_le (by norm_num : 0 < 2),
      le_div_iff₀ (by norm_num : (0 : ℚ) < 2)]
  constructor <;> intro h <;> exact_mod_cast h

/-- Witness for C3 at `s = 3`, `n = 7`. -/
theorem claim_C3_witness : isLowS 3 7 = true ↔ (3 : ℚ) ≤ (7 : ℚ) / 2 :=
  claim_C3 3 7

/-- C4 counterexample: at the record's txid, the material passed as the
public key is the identifier bytes read directly as a big-endian integer
(the txid's own value), which differs from the SHA-256-derived integer the
claim describes — no hashing is involved. -/
theorem claim_C4_counterexample :
    (verify_signature toPointDefault
        "44b4cca7a2306c6af2a931a50f9138bf87bf13ba41cd5ce5b6239e930b34793e"
        1 1 0 1).pubkeyUsed =
      some 0x44b4cca7a2306c6af2a931a50f9138bf87bf13ba41cd5ce5b6239e930b34793e ∧
    string_to_number (sha256_bytes ((fromhex
        "44b4cca7a2306c6af2a931a50f9138bf87bf13ba41cd5ce5b6239e930b34793e").getD
        [])) =
      0x3ee6b3e10f178bb7a3df7ae32fd13854e6da1cd94e10129bd6186b6d7e41ab0d ∧
    (0x44b4cca7a2306c6af2a931a50f9138bf87bf13ba41cd5ce5b6239e930b34793e : Nat) ≠
      0x3ee6b3e10f178bb7a3df7ae32fd13854e6da1cd94e10129bd6186b6d7e41ab0d :=
  ⟨by decide, by decide, by decide⟩

/-- C4 (amended): whenever the curve check is reached, the material passed
as the public key `Q` is `string_to_number` of the decoded identifier
bytes — an integer determined by the identifier bytes alone (no hashing,
not a curve point). -/
theorem claim_C4_amended (tp : Nat → ECPoint) (txid : String) (r s z n : Int)
    (h : (verify_signature tp txid r s z n).reachedCurve = true) :
    (verify_signature tp txid r s z n).pubkeyUsed =
      some (string_to_number ((fromhex txid).getD [])) := by
  cases hR : rangeOK r s with
  | false => rw [verify_signature_range_fail tp txid r s z n hR] at h; simp at h
  | true =>
    cases hd : fromhex txid with
    | none => rw [verify_signature_decode_fail tp txid r s z n hR hd] at h; simp at h
    | some bs =>
      rw [verify_signature_curve tp txid r s z n bs hR hd]
      rfl

/-- Witness for the amended C4 at a concrete run reaching the curve. -/
theorem claim_C4_witness :
    (verify_signature toPointDefault "00" 1 1 0 1).reachedCurve = true ∧
    (verify_signature toPointDefault "00" 1 1 0 1).pubkeyUsed =
      some (string_to_number ((fromhex "00").getD [])) :=
  ⟨by decide, claim_C4_amended toPointDefault "00" 1 1 0 1 (by decide)⟩

/-- C5 counterexample: `"aa bb"` is not valid hex of even length in the
spec's words (it contains a space and has five characters), yet
`calculate_z` succeeds on it, because `bytes.fromhex` skips ASCII
whitespace between byte pairs. -/
theorem claim_C5_counterexample :
    (calculate_z "aa bb").isOk = true ∧ specValidHexEven "aa bb" = false :=
  ⟨by decide, by decide⟩

/-- C5 (amended): `calculate_z` returns the SHA-256 digest of the decoded
bytes, rendered as a hex string whose big-endian integer value is
`string_to_number` of the digest; it fails with the decode error exactly
when `bytes.fromhex` fails, i.e. when the identifier is not a sequence of
two-hex-digit byte pairs optionally separated by ASCII whitespace. -/
theorem claim_C5_amended (txid : String) :
    (∀ bs, fromhex txid = some bs →
      calculate_z txid = Except.ok (toHexString (sha256_bytes bs)) ∧
      hexStrVal (toHexString (sha256_bytes bs)) =
        some (string_to_number (sha256_bytes bs))) ∧
    (fromhex txid = none → calculate_z txid = Except.error PyExc.valueError) := by
  constructor
  · intro bs hbs
    exact ⟨by simp [calculate_z, hbs],
           hexStrVal_toHexString _ (sha256_bytes_lt bs)⟩
  · intro hn
    simp [calculate_z, hn]

/-- Witness for the amended C5 on the identifier `"00"` (the spec's own
test scenario hashes the byte `0x00`). -/
theorem claim_C5_witness :
    fromhex "00" = some [0] ∧
    (calculate_z "00" = Except.ok (toHexString (sha256_bytes [0])) ∧
     hexStrVal (toHexString (sha256_bytes [0])) =
       some (string_to_number (sha256_bytes [0]))) :=
  ⟨by decide, (claim_C5_amended "00").1 [0] (by decide)⟩

/-- C6 counterexample: a batch whose first record has a non-hex `r` field
aborts at that record — the `int(_, 16)` conversions of lines 71-74 run
outside any handler, so the `ValueError` is fatal to the batch and the
second record is never processed, contradicting the claim that every
failure is isolated to its record. -/
theorem claim_C6_counterexample :
    processBatch toPointDefault
      [⟨"00", "zz", "0x1", "0x0", true, "0x1"⟩,
       ⟨"00", "0x1", "0x1", "0x0", true, "0x1"⟩] =
      Except.error PyExc.valueError := by
  decide

/-- C6 (amended): for every batch whose records' `r`, `s`, `z`, `n` fields
all parse as hex integers, processing completes with exactly one result
per record — failures inside `verify_signature` (bad identifier hex,
range, curve, library exceptions) are isolated to their record. -/
theorem claim_C6_amended (tp : Nat → ECPoint) (recs : List SigRecord)
    (h : ∀ rec ∈ recs, (parseHex rec.r).isOk = true ∧
        (parseHex rec.s).isOk = true ∧ (parseHex rec.z).isOk = true ∧
        (parseHex rec.n).isOk = true) :
    ∃ rs : List RunResult, processBatch tp recs = Except.ok rs ∧
      rs.length = recs.length := by
  induction recs with
  | nil => exact ⟨[], rfl, rfl⟩
  | cons rec rest ih =>
    obtain ⟨hr, hs, hz, hn⟩ := h rec (List.mem_cons_self rec rest)
    obtain ⟨rs, hrs, hlen⟩ := ih (fun x hx => h x (List.mem_cons_of_mem rec hx))
    cases hR : parseHex rec.r with
    | error e => rw [hR] at hr; exact Bool.noConfusion hr
    | ok rv =>
      cases hS : parseHex rec.s with
      | error e => rw [hS] at hs; exact Bool.noConfusion hs
      | ok sv =>
        cases hZ : parseHex rec.z with
        | error e => rw [hZ] at hz; exact Bool.noConfusion hz
        | ok zv =>
          cases hN : parseHex rec.n with
          | error e => rw [hN] at hn; exact Bool.noConfusion hn
          | ok nv =>
            refine ⟨verify_signature tp rec.txid rv sv zv nv :: rs, ?_, by
              simp [hlen]⟩
            simp only [processBatch, processRecord, hR, hS, hZ, hN, hrs]
            rfl

/-- Witness for the amended C6 on the source's own hardcoded batch. -/
theorem claim_C6_witness :
    (∀ rec ∈ signatures, (parseHex rec.r).isOk = true ∧
        (parseHex rec.s).isOk = true ∧ (parseHex rec.z).isOk = true ∧
        (parseHex rec.n).isOk = true) ∧
    (∃ rs : List RunResult, processBatch toPointDefault signatures =
        Except.ok rs ∧ rs.length = signatures.length) :=
  ⟨by decide, claim_C6_amended toPointDefault signatures (by decide)⟩

/-- C7: unexpected exceptions are observably distinct from the expected
invalid-signature outcome: normal returns and the `BadSignatureError`
branch print nothing, every other exception prints a diagnostic line (and
yields false); concretely, a run ending in the generic handler and a run
ending in a normal invalid verdict both return false but differ in
output. -/
theorem claim_C7 :
    (∀ b : Bool, (handleVerify (Except.ok b)).2 = []) ∧
    (handleVerify (Except.error PyExc.badSignature) = (false, [])) ∧
    (∀ e : PyExc, e ≠ PyExc.badSignature →
      (handleVerify (Except.error e)).1 = false ∧
      (handleVerify (Except.error e)).2 ≠ []) ∧
    ((verify_signature toPointDefault "zz" 1 1 0 1).result = false ∧
     (verify_signature toPointDefault "00" 1 1 0 1).result = false ∧
     (verify_signature toPointDefault "00" 1 1 0 1).reachedCurve = true ∧
     (verify_signature toPointDefault "zz" 1 1 0 1).output ≠
       (verify_signature toPointDefault "00" 1 1 0 1).output) := by
  refine ⟨fun b => rfl, rfl, ?_, by decide, by decide, by decide, by decide⟩
  intro e he
  cases e with
  | valueError => exact ⟨rfl, by decide⟩
  | badSignature => exact absurd rfl he
  | other => exact ⟨rfl, by decide⟩

/-- Witness for C7's hypothesis-bearing conjunct at the generic
exception. -/
theorem claim_C7_witness :
    PyExc.other ≠ PyExc.badSignature ∧
    ((handleVerify (Except.error PyExc.other)).1 = false ∧
     (handleVerify (Except.error PyExc.other)).2 ≠ []) :=
  ⟨by decide, claim_C7.2.2.1 PyExc.other (by decide)⟩

/-- C8 counterexample: a call of `verify_signature` whose decode fails
prints a diagnostic line — the function does produce output, contrary to
the claim that it has no side effect beyond the returned boolean. -/
theorem claim_C8_counterexample :
    (verify_signature toPointDefault "zz" 1 1 0 (curveOrder : Int)).output ≠
      [] := by
  decide

/-- C8 (amended): `verify_signature` is deterministic (equal arguments
give equal results) and side-effect free except for at most one printed
diagnostic line, which can only accompany a false result. -/
theorem claim_C8_amended (tp : Nat → ECPoint) (txid : String)
    (r s z n : Int) :
    verify_signature tp txid r s z n = verify_signature tp txid r s z n ∧
    (verify_signature tp txid r s z n).output.length ≤ 1 ∧
    ((verify_signature tp txid r s z n).output ≠ [] →
      (verify_signature tp txid r s z n).result = false) := by
  refine ⟨rfl, ?_⟩
  cases hR : rangeOK r s with
  | false =>
    rw [verify_signature_range_fail tp txid r s z n hR]
    exact ⟨by simp, fun hx => absurd rfl hx⟩
  | true =>
    cases hd : fromhex txid with
    | none =>
      rw [verify_signature_decode_fail tp txid r s z n hR hd]
      exact ⟨by simp, fun _ => rfl⟩
    | some bs =>
      rw [verify_signature_curve tp txid r s z n bs hR hd]
      exact ⟨by simp, fun hx => absurd rfl hx⟩

/-- Witness for the amended C8 at a run that does print. -/
theorem claim_C8_witness :
    (verify_signature toPointDefault "q" 1 1 0 1).output ≠ [] ∧
    (verify_signature toPointDefault "q" 1 1 0 1).result = false :=
  ⟨by decide, (claim_C8_amended toPointDefault "q" 1 1 0 1).2.2 (by decide)⟩

/-- C9: for `0 < s < n` with `2*s ≠ n` (the boundary `s = n/2`), exactly
one of `s` and `n - s` is low-S. -/
theorem claim_C9 (s n : Nat) (h1 : 0 < s) (h2 : s < n) (h3 : 2 * s ≠ n) :
    (isLowS s n = true ↔ isLowS (n - s) n = false) := by
  simp only [isLowS, decide_eq_true_eq, decide_eq_false_iff_not]
  omega

/-- Witness for C9 at `s = 1`, `n = 5`. -/
theorem claim_C9_witness :
    0 < 1 ∧ 1 < 5 ∧ 2 * 1 ≠ 5 ∧
    (isLowS 1 5 = true ↔ isLowS (5 - 1) 5 = false) :=
  ⟨by decide, by decide, by decide,
   claim_C9 1 5 (by decide) (by decide) (by decide)⟩

/-- C10: `verify_signature` is total — the handlers of lines 26-30 cover
every exception and map each to false, so whenever the `try` body raises,
the returned boolean is false (and a normal body return is passed
through). -/
theorem claim_C10 :
    (∀ e : PyExc, (handleVerify (Except.error e)).1 = false) ∧
    (∀ b : Bool, (handleVerify (Except.ok b)).1 = b) ∧
    (∀ (tp : Nat → ECPoint) (txid : String) (r s z n : Int),
      (verify_try tp txid r s z).1.isOk = false →
      (verify_signature tp txid r s z n).result = false) := by
  refine ⟨fun e => by cases e <;> rfl, fun b => rfl, ?_⟩
  intro tp txid r s z n h
  cases hR : rangeOK r s with
  | false =>
    rw [verify_signature_range_fail tp txid r s z n hR]
  | true =>
    cases hd : fromhex txid with
    | none => rw [verify_signature_decode_fail tp txid r s z n hR hd]
    | some bs =>
      simp [verify_try, hR, hd, Except.isOk, Except.toBool] at h

/-- Witness for C10's hypothesis-bearing conjunct at a raising run. -/
theorem claim_C10_witness :
    (verify_try toPointDefault "zz" 1 1 0).1.isOk = false ∧
    (verify_signature toPointDefault "zz" 1 1 0 7).result = false :=
  ⟨by decide, claim_C10.2.2 toPointDefault "zz" 1 1 0 7 (by decide)⟩
